import Mathlib

/-!
Verification development for the Windchill log-shipping scripts
(`httplogs/httplogtoinsights.py` and `log/windchillLogstoInsights.py`).

The two scripts share the same tailing pattern: each cycle they
`open` the monitored file, `seek` to the stored byte offset, call
`readlines()`, store `tell()` as the new offset, and process each
returned line (strip, classify or regex-parse, record metrics).

We model file contents as `List Char` (text mode, universal newlines)
and byte offsets as `Nat`.
-/

/-- Python whitespace test for `str.strip()` and the regex class `\S`
(ASCII fragment, which is all the log data contains). -/
def isWS (c : Char) : Bool :=
  c == ' ' || c == '\t' || c == '\n' || c == '\r' || c == '\x0b' || c == '\x0c'

/-- Model of Python `str.strip()`: drop leading and trailing whitespace. -/
def pyStrip (s : List Char) : List Char :=
  ((s.dropWhile isWS).reverse.dropWhile isWS).reverse

/-- Model of Python `f.readlines()` applied to the text after the seek
position: split into lines, each keeping its own terminator, the final
unterminated fragment (if any) returned as a last element. -/
def splitLinesKeep : List Char → List (List Char)
  | [] => []
  | c :: rest =>
    if c == '\n' then ['\n'] :: splitLinesKeep rest
    else
      match splitLinesKeep rest with
      | [] => [[c]]
      | l :: ls => (c :: l) :: ls

/-- Model of the shared read step of `send_access_metrics`
(httplogtoinsights.py lines 197-200) and `send_new_logs`
(windchillLogstoInsights.py lines 117-120):
`f.seek(pos); lines = f.readlines(); pos = f.tell()`.
Seeking past end-of-file is allowed; `readlines` then returns nothing and
`tell()` stays at the seek position, hence `max pos content.length`. -/
def readFrom (content : List Char) (pos : Nat) : List (List Char) × Nat :=
  (splitLinesKeep (content.drop pos), max pos content.length)

/-!
Model of `parse_log_line` (httplogtoinsights.py lines 156-181), i.e. of
`re.match` with the pattern
`(\S+) - (\S+) \[(.*?)\] "(.*?) (.*?) (HTTP/\d\.\d)" (\d{3}) (\d+) (\d+)`.

The greedy pieces `\S+`, `\d+` and `\d{3}` are each followed by a literal
that no shorter match could reach (a space after a token whose characters
exclude spaces, respectively a fixed count), so they are modelled as
maximal-munch without loss.  The lazy pieces `.*?` are modelled by
`lazyScan`, which tries the continuation at each position, shortest
prefix first, exactly as the backtracking engine does.  `.` does not
match a newline.  `re.match` anchors at the start only, so trailing
characters after the last group are ignored.
-/

/-- Severity of a structured event, as carried by the `logger.error` /
`logger.warning` / `logger.info` call that ships it. -/
inductive Level where
  | INFO
  | WARN
  | ERROR
deriving DecidableEq, Repr

/-- The nine captured groups of the access-log pattern, with the three
numeric groups already passed through `int(...)` as in the source. -/
structure LogData where
  client_ip : List Char
  user : List Char
  timestamp : List Char
  method : List Char
  url : List Char
  protocol : List Char
  status : Nat
  size : Nat
  response_time : Nat
deriving DecidableEq, Repr

/-- Maximal run of non-whitespace characters (`\S+` greedy), with the rest. -/
def takeNonWS : List Char → List Char × List Char
  | [] => ([], [])
  | c :: r =>
    if isWS c then ([], c :: r)
    else
      let (a, b) := takeNonWS r
      (c :: a, b)

/-- Maximal run of ASCII digits (`\d+` greedy), with the rest. -/
def takeDigits : List Char → List Char × List Char
  | [] => ([], [])
  | c :: r =>
    if c.isDigit then
      let (a, b) := takeDigits r
      (c :: a, b)
    else ([], c :: r)

/-- Exactly `n` digits (`\d{n}`), or failure. -/
def takeExactDigits : Nat → List Char → Option (List Char × List Char)
  | 0, s => some ([], s)
  | _ + 1, [] => none
  | n + 1, c :: r =>
    if c.isDigit then (takeExactDigits n r).map (fun p => (c :: p.1, p.2)) else none

/-- Match one literal character. -/
def expectChar (c : Char) : List Char → Option (List Char)
  | [] => none
  | x :: r => if x == c then some r else none

/-- Match a literal character sequence. -/
def expectStr : List Char → List Char → Option (List Char)
  | [], s => some s
  | c :: lit, s => (expectChar c s).bind (expectStr lit)

/-- Lazy `(.*?)` followed by the continuation `k`: try `k` on the whole
remainder first, then consume one (non-newline) character into the capture
and retry — shortest capture wins, as in the regex engine. -/
def lazyScan {α : Type} (k : List Char → Option α) : List Char → Option (List Char × α)
  | [] =>
    match k [] with
    | some a => some ([], a)
    | none => none
  | c :: r =>
    match k (c :: r) with
    | some a => some ([], a)
    | none =>
      if c == '\n' then none
      else
        match lazyScan k r with
        | some (pre, a) => some (c :: pre, a)
        | none => none

/-- The value of a digits-only capture under Python `int(...)`. -/
def digitsToNat (ds : List Char) : Nat :=
  ds.foldl (fun a c => a * 10 + (c.toNat - 48)) 0

/-- Group 6, `HTTP/\d\.\d`: the literal `HTTP/`, a digit, a dot, a digit. -/
def parseProto (s : List Char) : Option (List Char × List Char) :=
  match expectStr ['H', 'T', 'T', 'P', '/'] s with
  | none => none
  | some r =>
    match r with
    | d1 :: '.' :: d2 :: rest =>
      if d1.isDigit && d2.isDigit then
        some (['H', 'T', 'T', 'P', '/', d1, '.', d2], rest)
      else none
    | _ => none

/-- Groups 7-9, ` (\d{3}) (\d+) (\d+)` with the leading space already
consumed: status, size, response time. -/
def parseNums (s : List Char) : Option (Nat × Nat × Nat) := do
  let (st, r) ← takeExactDigits 3 s
  let r ← expectChar ' ' r
  let (sz, r2) := takeDigits r
  if sz.isEmpty then none
  else do
    let r2 ← expectChar ' ' r2
    let (rt, _) := takeDigits r2
    if rt.isEmpty then none
    else some (digitsToNat st, digitsToNat sz, digitsToNat rt)

/-- Groups 4-9, the part after the opening quote:
`(.*?) (.*?) (HTTP/\d\.\d)" (\d{3}) (\d+) (\d+)`. -/
def parseReq (s : List Char) :
    Option ((List Char × List Char × List Char) × (Nat × Nat × Nat)) :=
  (lazyScan (fun r1 => do
    let r1 ← expectChar ' ' r1
    lazyScan (fun r2 => do
      let r2 ← expectChar ' ' r2
      let (proto, r3) ← parseProto r2
      let r3 ← expectChar '\"' r3
      let r3 ← expectChar ' ' r3
      let nums ← parseNums r3
      some (proto, nums)) r1) s).map
    (fun p => ((p.1, p.2.1, p.2.2.1), p.2.2.2))

/-- Model of `parse_log_line` (httplogtoinsights.py lines 158-181): the
anchored match of the full pattern, `none` when the line does not match. -/
def parse_log_line (line : List Char) : Option LogData :=
  let (ip, r) := takeNonWS line
  if ip.isEmpty then none
  else
    match expectStr [' ', '-', ' '] r with
    | none => none
    | some r1 =>
      let (usr, r2) := takeNonWS r1
      if usr.isEmpty then none
      else
        match expectStr [' ', '['] r2 with
        | none => none
        | some r3 =>
          match lazyScan (fun t => do
            let t ← expectChar ']' t
            let t ← expectChar ' ' t
            let t ← expectChar '\"' t
            parseReq t) r3 with
          | none => none
          | some (ts, ((m, u, proto), (st, sz, rt))) =>
            some { client_ip := ip, user := usr, timestamp := ts, method := m,
                   url := u, protocol := proto, status := st, size := sz,
                   response_time := rt }

/-- The sample access-log line of the end-to-end scenario. -/
def sampleLine : String :=
  "10.0.0.1 - alice [01/Jan/2024:00:00:00] \"GET /api/x HTTP/1.1\" 200 512 120"

/-!
Model of the application-log shipper `windchillLogstoInsights.py`.
`send_new_logs` (lines 108-140) iterates over the files matching one
pattern; for each file it initialises a missing position entry to 0, and
inside a per-file `try`/`except` it seeks, reads the new lines, stores the
new position, and for each stripped non-empty line classifies it by
substring and calls `record_metric(...)` with the default value 1.
A raised read error is logged and only skips that one file.
-/

/-- The substring `"ERROR"` checked first by the classifier. -/
def errTok : List Char := "ERROR".data

/-- The substring `"WARN"` checked second by the classifier. -/
def warnTok : List Char := "WARN".data

/-- The substring `"WARNING"` also checked second by the classifier. -/
def warningTok : List Char := "WARNING".data

/-- Model of Python `sub in s`: substring containment. -/
def hasSubstr : List Char → List Char → Bool
  | [], sub => sub.isEmpty
  | c :: t, sub => if sub.isPrefixOf (c :: t) then true else hasSubstr t sub

/-- The per-line classifier of `send_new_logs` (lines 127-135):
`if "ERROR" in line ... elif "WARN" in line or "WARNING" in line ... else`. -/
def classify (line : List Char) : Level :=
  if hasSubstr line errTok then Level.ERROR
  else if hasSubstr line warnTok || hasSubstr line warningTok then Level.WARN
  else Level.INFO

/-- Metric key `info_count`. -/
def infoCountName : String := "info_count"

/-- Metric key `warn_count`. -/
def warnCountName : String := "warn_count"

/-- Metric key `error_count`. -/
def errorCountName : String := "error_count"

/-- The measure recorded for a line of each level (lines 127-135). -/
def metricName : Level → String
  | Level.ERROR => errorCountName
  | Level.WARN => warnCountName
  | Level.INFO => infoCountName

/-- One iteration of the line loop of `send_new_logs` (lines 122-135):
strip, skip empty lines, classify, record one count metric of value 1. -/
def appStep (acc : List (String × Nat)) (raw : List Char) : List (String × Nat) :=
  let line := pyStrip raw
  if line.isEmpty then acc
  else acc ++ [(metricName (classify line), 1)]

/-- All `record_metric` calls issued for one file's batch of new lines. -/
def appEmissions (lines : List (List Char)) : List (String × Nat) :=
  lines.foldl appStep []

/-- One monitored file in a cycle: its path and the outcome of
`open(...)`/read — either the file's content or a raised `OSError`. -/
structure AppFile where
  path : String
  res : Except Unit (List Char)

/-- Python-dict lookup in the `last_positions` mapping. -/
def lookupPos : List (String × Nat) → String → Option Nat
  | [], _ => none
  | (p, n) :: rest, q => if p == q then some n else lookupPos rest q

/-- Python-dict update of the `last_positions` mapping. -/
def setPos : List (String × Nat) → String → Nat → List (String × Nat)
  | [], q, v => [(q, v)]
  | (p, n) :: rest, q, v =>
    if p == q then (q, v) :: rest else (p, n) :: setPos rest q v

/-- Observable outcome of `send_new_logs`: the positions dict, the
`record_metric` calls, the paths whose read raised (logged via
`logger.error`), and the paths read and processed to completion. -/
structure AppOut where
  positions : List (String × Nat)
  emissions : List (String × Nat)
  errorsLogged : List String
  processed : List String

/-- The per-file body of `send_new_logs` (lines 112-140): initialise a
missing position to 0, then under `try` read from the stored position and
process the lines; `except` logs the failure and moves on. -/
def processFile (st : AppOut) (file : AppFile) : AppOut :=
  let ps := if (lookupPos st.positions file.path).isSome then st.positions
            else st.positions ++ [(file.path, 0)]
  let pos := (lookupPos ps file.path).getD 0
  match file.res with
  | Except.error _ =>
    { st with positions := ps, errorsLogged := st.errorsLogged ++ [file.path] }
  | Except.ok content =>
    let r := readFrom content pos
    { st with positions := setPos ps file.path r.2,
              emissions := st.emissions ++ appEmissions r.1,
              processed := st.processed ++ [file.path] }

/-- Model of `send_new_logs` (lines 108-140) over the resolved file list. -/
def send_new_logs (files : List AppFile) (st : AppOut) : AppOut :=
  files.foldl processFile st

/-- Holds iff the computation succeeded (no exception raised). -/
def exceptOkB {ε α : Type} : Except ε α → Bool
  | Except.ok _ => true
  | Except.error _ => false

/-!
Model of the access-log shipper's per-cycle work in
`send_access_metrics` (httplogtoinsights.py lines 186-234) and of the
main loop (lines 239-250).
-/

/-- A structured event shipped for one parsed access-log line; the
carrying call is always `logger.info(...)` (line 216), so the level is
always `INFO`. -/
structure AccessEvent where
  data : LogData
  level : Level
deriving DecidableEq, Repr

/-- Metric key `response_time`. -/
def responseTimeName : String := "response_time"

/-- Metric key `error_http_count`. -/
def errorHttpCountName : String := "error_http_count"

/-- Metric key `request_count`. -/
def requestCountName : String := "request_count"

/-- Metric key `error_rate`. -/
def errorRateName : String := "error_rate"

/-- Metric key `avg_response_time`. -/
def avgResponseTimeName : String := "avg_response_time"

/-- Metric key `heartbeat`. -/
def heartbeatName : String := "heartbeat"

/-- The running state of the line loop of `send_access_metrics`
(lines 193-219): counters, the latency sample list, the `record_metric`
calls issued so far (metric values as exact rationals), and the
structured events shipped so far. -/
structure LoopAcc where
  request_count : Nat
  error_count : Nat
  response_times : List Nat
  metrics : List (String × ℚ)
  events : List AccessEvent
deriving DecidableEq, Repr

/-- The loop state before the first line. -/
def initAcc : LoopAcc :=
  { request_count := 0, error_count := 0, response_times := [],
    metrics := [], events := [] }

/-- One iteration of the line loop (lines 202-219): strip, skip empty,
parse, skip no-match, then count the request, sample the response time,
record `response_time`, on `status >= 400` count and record an error,
and ship the structured event at level INFO. -/
def stepLine (a : LoopAcc) (raw : List Char) : LoopAcc :=
  let line := pyStrip raw
  if line.isEmpty then a
  else
    match parse_log_line line with
    | none => a
    | some d =>
      { request_count := a.request_count + 1,
        error_count := a.error_count + (if 400 ≤ d.status then 1 else 0),
        response_times := a.response_times ++ [d.response_time],
        metrics := a.metrics ++ [(responseTimeName, (d.response_time : ℚ))] ++
          (if 400 ≤ d.status then [(errorHttpCountName, (1 : ℚ))] else []),
        events := a.events ++ [{ data := d, level := Level.INFO }] }

/-- The whole line loop of `send_access_metrics` over a batch of lines. -/
def runLoop (lines : List (List Char)) : LoopAcc :=
  lines.foldl stepLine initAcc

/-- A raw line contributes an event iff, once stripped, it is non-empty
and matches the access-log pattern. -/
def validLine (raw : List Char) : Bool :=
  !(pyStrip raw).isEmpty && (parse_log_line (pyStrip raw)).isSome

/-- Floor of a non-negative rational as a natural number; models Python
`int(...)` on the non-negative floats produced by `np.mean` and
`np.percentile` (truncation towards zero coincides with floor there). -/
def ratFloorNat (q : ℚ) : Nat := q.num.toNat / q.den

/-- Insertion into a sorted list, for the sort inside `np.percentile`. -/
def insertSorted (x : Nat) : List Nat → List Nat
  | [] => [x]
  | y :: r => if x ≤ y then x :: y :: r else y :: insertSorted x r

/-- Ascending sort of the latency samples, as `np.percentile` sorts its
input before indexing. -/
def sortNats : List Nat → List Nat
  | [] => []
  | x :: r => insertSorted x (sortNats r)

/-- Model of `int(np.percentile(xs, p))` for an integer percent `p` and
integer samples, with numpy's default linear-interpolation method: the
virtual index is `p/100 * (n-1)`; writing `p*(n-1) = 100*i + rem`, the
interpolated value is `lo + rem*(hi-lo)/100` with `lo`/`hi` the sorted
samples at indices `i` and `min (i+1) (n-1)`, and `int(...)` floors it.
All arithmetic is exact over a fixed denominator of 100, so this equals
the exact rational computation; on the integer samples of the claims the
float computation yields the same integer results. -/
def npPercentileInt (xs : List Nat) (p : Nat) : Nat :=
  let s := sortNats xs
  let n := s.length
  if n = 0 then 0
  else
    let t := p * (n - 1)
    let i := t / 100
    let rem := t % 100
    let lo := s.getD i 0
    let hi := s.getD (min (i + 1) (n - 1)) 0
    lo + rem * (hi - lo) / 100

/-- The three percentiles of the interval summary log line
(httplogtoinsights.py lines 228-234): `int(np.percentile(..., 50/90/99))`. -/
def summaryPercentiles (rts : List Nat) : Nat × Nat × Nat :=
  (npPercentileInt rts 50, npPercentileInt rts 90, npPercentileInt rts 99)

/-- `np.mean` of the latency samples as an exact rational. -/
def listMeanQ (xs : List Nat) : ℚ := ((xs.sum : ℚ)) / ((xs.length : ℚ))

/-- Outcome of looking for / opening the monitored access log: the file
is missing, or `open(...)`/reading raises, or the content is read. -/
inductive OpenResult where
  | missing
  | ioError
  | content (c : List Char)

/-- The warning logged when the access log does not exist (line 190). -/
def accessMissingWarning : String := "access.log does not exist"

/-- Observable outcome of one `send_access_metrics` call. -/
structure AccessOut where
  warnings : List String
  events : List AccessEvent
  metrics : List (String × ℚ)
  response_times : List Nat
  request_count : Nat
  error_count : Nat
  new_pos : Nat
deriving DecidableEq, Repr

/-- Model of `send_access_metrics` (lines 186-234).  A missing file logs
a warning and returns with nothing read and the offset untouched (lines
189-191).  An exception while opening or reading is NOT caught anywhere
in this script and propagates to the caller (`Except.error`).  Otherwise
the new lines are read from the stored offset, the line loop runs, and
when `request_count > 0` the interval summary metrics are recorded:
`request_count`, `error_rate = error_count/request_count*100`, and
`avg_response_time = int(np.mean(response_times))` (lines 221-234). -/
def send_access_metrics (f : OpenResult) (pos : Nat) : Except Unit AccessOut :=
  match f with
  | OpenResult.missing =>
    Except.ok { warnings := [accessMissingWarning], events := [], metrics := [],
                response_times := [], request_count := 0, error_count := 0,
                new_pos := pos }
  | OpenResult.ioError => Except.error ()
  | OpenResult.content c =>
    let r := readFrom c pos
    let a := runLoop r.1
    let summary :=
      if 0 < a.request_count then
        [(requestCountName, (a.request_count : ℚ)),
         (errorRateName, (a.error_count : ℚ) / (a.request_count : ℚ) * 100),
         (avgResponseTimeName, (ratFloorNat (listMeanQ a.response_times) : ℚ))]
      else []
    Except.ok { warnings := [], events := a.events, metrics := a.metrics ++ summary,
                response_times := a.response_times,
                request_count := a.request_count, error_count := a.error_count,
                new_pos := r.2 }

/-- Observable outcome of one iteration of the access-log shipper's main
loop when it completes. -/
structure CycleOut where
  out : AccessOut
  heartbeatSent : Bool
  stateSaved : Bool
deriving DecidableEq, Repr

/-- Model of one iteration of the `while True` loop (lines 243-247):
`send_access_metrics(); record_metric("heartbeat", 1); save_state()`.
Only `KeyboardInterrupt` is caught outside the loop, so any exception
escaping `send_access_metrics` terminates the loop before the heartbeat
and the state save. -/
def httpCycle (f : OpenResult) (pos : Nat) : Except Unit CycleOut :=
  match send_access_metrics f pos with
  | Except.error e => Except.error e
  | Except.ok out =>
    Except.ok { out := out, heartbeatSent := true, stateSaved := true }

/-!
Model of `save_state` (httplogtoinsights.py lines 145-151 and
windchillLogstoInsights.py lines 96-102).  Both scripts run
`open(STATE_FILE, "w")` — which truncates the file at open time — and
then `json.dump(...)` into it, with the whole body in a
`try`/`except` that only logs a failure.  A failure after the open
therefore leaves the state file holding only the prefix written so far.
-/

/-- How far a `save_state` call got before failing, if it failed. -/
inductive WriteOutcome where
  | ok
  | failAfter (written : Nat)

/-- Model of `save_state`: the state-file content after the call, given
the previous content (`none` when the file did not exist yet) and the
serialized payload.  `open(..., "w")` truncates first, so a failure
after writing `k` characters leaves `payload.take k`, not the previous
content; the exception is caught and logged, so the caller continues. -/
def save_state (_prev : Option String) (payload : String) :
    WriteOutcome → Option String
  | WriteOutcome.ok => some payload
  | WriteOutcome.failAfter k => some (payload.take k)

/-- Modelled from the spec: the write-temp-then-rename persist the spec
prescribes, under which a failed write leaves the previously persisted
content untouched.  Used only to compare the code's `save_state`
against the claimed atomic behaviour. -/
def save_state_atomic_spec (prev : Option String) (payload : String) :
    WriteOutcome → Option String
  | WriteOutcome.ok => some payload
  | WriteOutcome.failAfter _ => prev

/-!
Concrete inputs used by the claim theorems below.
-/

/-- An application-log line containing `ERROR:` first and `WARN` later. -/
def c7Line : String := "2024-01-01 12:00:00 ERROR: disk full (WARN threshold passed)"

/-- A short line containing `ERROR`, for the classifier witness. -/
def c7Demo : List Char := "x ERROR y".data

/-- A resolved MethodServer log path. -/
def msPath : String := "MethodServer-01-log4j.log"

/-- Content of the MethodServer log already read in a previous cycle. -/
def c4Content : List Char := "INFO startup done\n".data

/-- The MethodServer file, readable, with no new bytes this cycle. -/
def c4File : AppFile := { path := msPath, res := Except.ok c4Content }

/-- The shipper state at the start of that cycle: the stored position is
already at the end of the file. -/
def c4InitSt : AppOut :=
  { positions := [(msPath, c4Content.length)], emissions := [],
    errorsLogged := [], processed := [] }

/-- A garbage line that does not match the access-log pattern. -/
def garbageLine : String := "this is not an access log line"

/-- A batch of 100 raw lines of which 70 are valid and 30 are garbage. -/
def batch100 : List (List Char) :=
  List.replicate 70 sampleLine.data ++ List.replicate 30 garbageLine.data

/-- File content holding one valid and one garbage line. -/
def smallContent : List Char :=
  sampleLine.data ++ ['\n'] ++ garbageLine.data ++ ['\n']

/-- A previously persisted state-file content. -/
def oldState : String := "old-state"

/-- The payload of the next persist. -/
def newState : String := "new-state"

/-- The empty string, the state-file content right after a truncating open. -/
def emptyStr : String := ""

/-!
Claim theorems.
-/

theorem splitLinesKeep_flatten (s : List Char) :
    (splitLinesKeep s).flatten = s := by
  induction s with
  | nil => rfl
  | cons c rest ih =>
    by_cases h : c = '\n'
    · subst h
      simp [splitLinesKeep, ih]
    · have hb : (c == '\n') = false := by simp [h]
      cases hrec : splitLinesKeep rest with
      | nil =>
        have : rest = [] := by
          have := ih
          rw [hrec] at this
          simpa using this.symm
        subst this
        simp [splitLinesKeep, hb, hrec]
      | cons l ls =>
        have : (splitLinesKeep (c :: rest)) = (c :: l) :: ls := by
          simp [splitLinesKeep, hb, hrec]
        rw [this]
        have := ih
        rw [hrec] at this
        simpa using this

/-- Claim C1 counterexample: for content `"a\nb"` (a complete line followed
by an unterminated fragment `"b"`) read from offset 0, the code returns the
fragment `"b"` among the lines and advances the offset to 3 (end of file),
not to 2 (end of the last complete line) as the claim requires. -/
theorem c1_partial_line_counterexample :
    readFrom ['a', '\n', 'b'] 0 = ([['a', '\n'], ['b']], 3) ∧
      (['b'] ∈ (readFrom ['a', '\n', 'b'] 0).1) ∧ (3 : Nat) ≠ 2 := by
  refine ⟨by decide, by decide, by decide⟩

/-- Claim C1 amended: the read returns all bytes after the stored offset,
split into lines with the trailing unterminated fragment included, and the
stored offset always advances to end-of-file (never stopping at the last
complete line), so a partial tail is forwarded immediately and is not
re-read on the next cycle. -/
theorem c1_partial_line_amended (content : List Char) (pos : Nat) :
    ((readFrom content pos).1).flatten = content.drop pos ∧
      (readFrom content pos).2 = max pos content.length := by
  exact ⟨splitLinesKeep_flatten _, rfl⟩

/-- Claim C2 counterexample: with stored offset 5 and a (rotated) file of
size 2, the code returns no lines and keeps the offset at 5; it does not
reset the offset to 0 and does not return the lines at the start of the
new file, contrary to the claim. -/
theorem c2_rotation_counterexample :
    readFrom ['x', '\n'] 5 = ([], 5) ∧ (5 : Nat) ≠ 0 ∧
      (readFrom ['x', '\n'] 5).1 ≠ [['x', '\n']] := by
  refine ⟨by decide, by decide, by decide⟩

/-- Claim C2 amended: neither script performs any size check or rotation
reset; when the current file size is smaller than the stored offset the
read returns no lines and the stored offset stays at its old value, so
content of the new file is skipped until the file grows past the old
offset. -/
theorem c2_rotation_amended (content : List Char) (pos : Nat)
    (h : content.length < pos) :
    readFrom content pos = ([], pos) := by
  have hd : content.drop pos = [] := List.drop_eq_nil_of_le (Nat.le_of_lt h)
  have hm : max pos content.length = pos := Nat.max_eq_left (Nat.le_of_lt h)
  simp [readFrom, hd, hm, splitLinesKeep]

/-- Witness for `c2_rotation_amended` at content `"ab"`, offset 7. -/
theorem c2_rotation_amended_witness :
    readFrom ['a', 'b'] 7 = ([], 7) :=
  c2_rotation_amended ['a', 'b'] 7 (by decide)

/-- Claim C3 counterexample: the code's percentile computation is
`int(np.percentile(...))`, which interpolates linearly; on the samples
`[100,200,300,400,500]` it yields `p90 = 460`, not the `500` the
nearest-rank claim requires. -/
theorem c3_percentile_counterexample :
    npPercentileInt [100, 200, 300, 400, 500] 90 = 460 ∧ (460 : Nat) ≠ 500 := by
  refine ⟨by decide, by decide⟩

/-- Claim C3 amended: the latency percentiles are computed by
`np.percentile`'s default linear interpolation (virtual index
`p/100*(N-1)`), truncated to int; for the response-time samples
`[100,200,300,400,500]` the logged values are `p50=300`, `p90=460`,
`p99=496`. -/
theorem c3_percentile_amended :
    summaryPercentiles [100, 200, 300, 400, 500] = (300, 460, 496) := by
  decide

/-- Claim C4 counterexample: a cycle in which the application-log file
yields no new lines (stored position already at end-of-file) issues no
`record_metric` call at all — in particular no zero-valued
`info_count` / `warn_count` / `error_count` records are emitted. -/
theorem c4_zero_cycle_counterexample :
    (send_new_logs [c4File] c4InitSt).emissions = [] ∧
      (infoCountName, 0) ∉ (send_new_logs [c4File] c4InitSt).emissions ∧
      (warnCountName, 0) ∉ (send_new_logs [c4File] c4InitSt).emissions ∧
      (errorCountName, 0) ∉ (send_new_logs [c4File] c4InitSt).emissions := by
  refine ⟨by decide, by decide, by decide, by decide⟩

theorem appEmissions_foldl_eq (lines : List (List Char)) :
    ∀ acc, lines.foldl appStep acc =
      acc ++ ((lines.map pyStrip).filter (fun s => !s.isEmpty)).map
        (fun s => (metricName (classify s), 1)) := by
  induction lines with
  | nil => intro acc; simp
  | cons l ls ih =>
    intro acc
    by_cases h : (pyStrip l).isEmpty
    · simp [List.foldl_cons, appStep, h, ih]
    · simp [List.foldl_cons, appStep, h, ih]

/-- Claim C4 amended: the info/warn/error counts are emitted as
increments of value 1, one `record_metric` call per non-empty classified
line, at the time the line is processed; a cycle that yields no new
lines emits no count records at all (zero-valued counts are never
emitted). -/
theorem c4_zero_cycle_amended :
    (∀ lines, appEmissions lines =
      ((lines.map pyStrip).filter (fun s => !s.isEmpty)).map
        (fun s => (metricName (classify s), 1))) ∧
      appEmissions [] = [] := by
  constructor
  · intro lines
    simpa [appEmissions] using appEmissions_foldl_eq lines []
  · rfl

/-- Claim C5 counterexample: `save_state` opens the state file with mode
`"w"`, which truncates it before `json.dump` runs; a failure at that
point leaves the file empty — the previously persisted content
`oldState` is lost, while the claimed write-temp-then-rename behaviour
would have preserved it. -/
theorem c5_persist_counterexample :
    save_state (some oldState) newState (WriteOutcome.failAfter 0) = some emptyStr ∧
      save_state (some oldState) newState (WriteOutcome.failAfter 0) ≠ some oldState ∧
      save_state_atomic_spec (some oldState) newState (WriteOutcome.failAfter 0) =
        some oldState := by
  refine ⟨by decide, by decide, by decide⟩

/-- Claim C5 amended: `save_state` writes the mapping directly into the
state file (truncate-on-open, then write), not via a temporary file; a
successful call stores the payload, but a call that fails after writing
`k` characters leaves only that prefix, so the previously persisted
content is lost whenever it differs from that prefix; the exception is
caught and logged and the loop continues. -/
theorem c5_persist_amended (prev : Option String) (payload : String) (k : Nat) :
    save_state prev payload WriteOutcome.ok =
        save_state_atomic_spec prev payload WriteOutcome.ok ∧
      save_state prev payload (WriteOutcome.failAfter k) = some (payload.take k) ∧
      (prev ≠ some (payload.take k) →
        save_state prev payload (WriteOutcome.failAfter k) ≠
          save_state_atomic_spec prev payload (WriteOutcome.failAfter k)) := by
  refine ⟨rfl, rfl, ?_⟩
  intro h hc
  exact h (by simpa [save_state, save_state_atomic_spec] using hc.symm)

/-- Witness for `c5_persist_amended`: concrete previous content
`"old-state"`, payload `"new-state"`, failure after 2 characters. -/
theorem c5_persist_amended_witness :
    save_state (some oldState) newState (WriteOutcome.failAfter 2) ≠
      save_state_atomic_spec (some oldState) newState (WriteOutcome.failAfter 2) :=
  (c5_persist_amended (some oldState) newState 2).2.2 (by decide)

/-- Claim C6 counterexample: in the access-log shipper, an I/O error
raised while opening or reading the (existing) monitored file is not
caught anywhere — `send_access_metrics` propagates it out of the
`while True` loop, so the cycle terminates before the heartbeat and the
state save, contrary to "caught and logged and never terminates the
cycle". -/
theorem c6_failure_isolation_counterexample :
    httpCycle OpenResult.ioError 0 = Except.error () ∧
      exceptOkB (httpCycle OpenResult.ioError 0) = false := by
  refine ⟨rfl, rfl⟩

/-- Claim C6 amended: in the application-log shipper, each file's read
runs inside its own try/except, so a failing file is logged and every
other file whose read succeeds is still read and processed in the same
cycle; in the access-log shipper only the missing-file case is handled
(early return) and any other read error propagates and terminates the
monitoring loop. -/
theorem c6_failure_isolation_amended (files : List AppFile) (st : AppOut) :
    (send_new_logs files st).processed =
        st.processed ++ (files.filter (fun f => exceptOkB f.res)).map AppFile.path ∧
      (send_new_logs files st).errorsLogged =
        st.errorsLogged ++ (files.filter (fun f => !exceptOkB f.res)).map AppFile.path := by
  induction files generalizing st with
  | nil => simp [send_new_logs]
  | cons f fs ih =>
    have hstep : send_new_logs (f :: fs) st = send_new_logs fs (processFile st f) := rfl
    rw [hstep]
    rcases ih (processFile st f) with ⟨h1, h2⟩
    cases hres : f.res with
    | ok c =>
      have hb : exceptOkB f.res = true := by simp [exceptOkB, hres]
      refine ⟨?_, ?_⟩
      · rw [h1]
        simp [processFile, hres, hb, exceptOkB, List.filter_cons]
      · rw [h2]
        simp [processFile, hres, hb, exceptOkB, List.filter_cons]
    | error e =>
      have hb : exceptOkB f.res = false := by simp [exceptOkB, hres]
      refine ⟨?_, ?_⟩
      · rw [h1]
        simp [processFile, hres, hb, exceptOkB, List.filter_cons]
      · rw [h2]
        simp [processFile, hres, hb, exceptOkB, List.filter_cons]

/-- Claim C7: the application-log classifier assigns the level by
substring presence in precedence order — a line containing `ERROR` is
ERROR regardless of any later `WARN`; otherwise a line containing `WARN`
or `WARNING` is WARN; otherwise INFO.  The concrete line containing
`ERROR: disk full` and a later `WARN` classifies as ERROR. -/
theorem c7_classifier_precedence :
    (∀ line : List Char, hasSubstr line errTok = true →
        classify line = Level.ERROR) ∧
      (∀ line : List Char, hasSubstr line errTok = false →
        (hasSubstr line warnTok || hasSubstr line warningTok) = true →
        classify line = Level.WARN) ∧
      (∀ line : List Char, hasSubstr line errTok = false →
        (hasSubstr line warnTok || hasSubstr line warningTok) = false →
        classify line = Level.INFO) ∧
      classify c7Line.data = Level.ERROR ∧
      hasSubstr c7Line.data warnTok = true := by
  refine ⟨?_, ?_, ?_, by decide, by decide⟩
  · intro line h
    simp [classify, h]
  · intro line h1 h2
    simp [classify, h1, h2]
  · intro line h1 h2
    simp [classify, h1, h2]

/-- Witness for `c7_classifier_precedence` at the line `"x ERROR y"`. -/
theorem c7_classifier_precedence_witness :
    classify c7Demo = Level.ERROR :=
  c7_classifier_precedence.1 c7Demo (by decide)

/-- Claim C8: parsing the sample access-log line produces exactly the
claimed groups, and the event shipped for it carries level INFO. -/
theorem c8_end_to_end_parse :
    parse_log_line sampleLine.data =
        some { client_ip := "10.0.0.1".data, user := "alice".data,
               timestamp := "01/Jan/2024:00:00:00".data, method := "GET".data,
               url := "/api/x".data, protocol := "HTTP/1.1".data,
               status := 200, size := 512, response_time := 120 } ∧
      (runLoop [sampleLine.data]).events =
        [{ data := { client_ip := "10.0.0.1".data, user := "alice".data,
                     timestamp := "01/Jan/2024:00:00:00".data, method := "GET".data,
                     url := "/api/x".data, protocol := "HTTP/1.1".data,
                     status := 200, size := 512, response_time := 120 },
           level := Level.INFO }] := by
  refine ⟨by decide, by decide⟩

/-- Claim C9: when the access log is missing, `send_access_metrics`
logs a warning and returns with no lines, no events, no metrics, and the
stored offset unchanged (not reset to 0). -/
theorem c9_missing_file_keeps_offset (pos : Nat) :
    send_access_metrics OpenResult.missing pos =
      Except.ok { warnings := [accessMissingWarning], events := [], metrics := [],
                  response_times := [], request_count := 0, error_count := 0,
                  new_pos := pos } := rfl

theorem runLoop_events_length (lines : List (List Char)) :
    ∀ a : LoopAcc, ((lines.foldl stepLine a).events).length =
      a.events.length + (lines.filter validLine).length := by
  induction lines with
  | nil => intro a; simp
  | cons l ls ih =>
    intro a
    rw [List.foldl_cons, ih]
    by_cases h : (pyStrip l).isEmpty
    · have hv : validLine l = false := by simp [validLine, h]
      simp [stepLine, h, hv, List.filter_cons]
    · cases hp : parse_log_line (pyStrip l) with
      | none =>
        have hv : validLine l = false := by simp [validLine, h, hp]
        simp [stepLine, h, hp, hv, List.filter_cons]
      | some d =>
        have hv : validLine l = true := by simp [validLine, h, hp]
        simp [stepLine, h, hp, hv, List.filter_cons]
        omega

theorem filter_replicate_length {α : Type} (p : α → Bool) (n : Nat) (x : α) :
    ((List.replicate n x).filter p).length = if p x then n else 0 := by
  induction n with
  | zero => simp
  | succ n ih =>
    by_cases h : p x <;> simp [List.replicate_succ, List.filter_cons, h, ih]

/-- Claim C10: parsing is total and no-match lines are skipped without
aborting: for every batch, the number of shipped events equals the
number of lines that are non-empty after stripping and match the
pattern; the concrete 100-line batch with 30 garbage lines yields
exactly 70 events; and a cycle over a file holding garbage completes
(returns `ok`, reaching heartbeat and state save). -/
theorem c10_garbage_batch :
    (∀ lines, ((runLoop lines).events).length = (lines.filter validLine).length) ∧
      batch100.length = 100 ∧
      ((runLoop batch100).events).length = 70 ∧
      exceptOkB (httpCycle (OpenResult.content smallContent) 0) = true := by
  have hgen : ∀ lines, ((runLoop lines).events).length =
      (lines.filter validLine).length := by
    intro lines
    simpa [runLoop, initAcc] using runLoop_events_length lines initAcc
  refine ⟨hgen, by decide, ?_, by decide⟩
  have h1 : validLine sampleLine.data = true := by decide
  have h2 : validLine garbageLine.data = false := by decide
  rw [hgen]
  simp [batch100, List.filter_append, filter_replicate_length, h1, h2]
